import Mathlib

/-!
Verification of the CAS verification and web-scraping utilities
(CAS_verification.py): a shallow embedding of the CAS checksum validator,
the invalid-row filter, the HMDB id/status enrichment helpers, and the
PubMed hit counter, together with proofs of the specified properties.

HTTP requests and HTML parsing are modelled by oracles: a request is a
function from the requested URL (and, for the PubMed batch, the row index)
to an abstract outcome, and a parsed page is the list of elements that the
scraping code inspects.
-/

namespace CASVerification

/-- Conversion of one character to its decimal digit value, as Python
int(c) on a one-character string: digits succeed, everything else raises
(modelled by none). -/
def charToDigit (c : Char) : Option Nat :=
  if c.isDigit then some (c.toNat - 48) else none

/-- Conversion of a character list to digit values; none models the
ValueError raised by int() on the first non-digit character. -/
def charsToDigits : List Char → Option (List Nat)
  | [] => some []
  | c :: cs =>
    match charToDigit c, charsToDigits cs with
    | some d, some ds => some (d :: ds)
    | _, _ => none

/-- Embedding of validate_cas_number.  The Python function strips hyphens,
takes int of the last character as the check digit, converts the remaining
characters to digits, and compares the weighted sum (weights 1, 2, ... from
the digit nearest the check digit) modulo 10 with the check digit.
A raised exception (IndexError on an empty digit string, ValueError on a
non-digit character) is modelled by none. -/
def validate_cas_number (cas_number : String) : Option Bool :=
  let digits := cas_number.toList.filter (fun c => c ≠ '-')
  match digits.getLast? with
  | none => none
  | some last =>
    match charToDigit last with
    | none => none
    | some check_digit =>
      match charsToDigits digits.dropLast with
      | none => none
      | some vals =>
        some
          ((((vals.reverse.zip (List.range' 1 vals.length)).map
              (fun p => p.1 * p.2)).sum % 10) == check_digit)

/-- A CAS string is well formed when, after removing hyphens, it is a
nonempty string of decimal digits. -/
def wellFormedCAS (s : String) : Bool :=
  let digits := s.toList.filter (fun c => c ≠ '-')
  !digits.isEmpty && digits.all Char.isDigit

/-- The checksum condition exactly as the specification words it: reverse
the digits preceding the check digit so the digit nearest the check digit
has weight 1, the next weight 2, and so on; sum digit*weight; valid iff
that sum modulo 10 equals the check digit. -/
def casChecksumValidSpec (ds : List Nat) (c : Nat) : Bool :=
  (((ds.reverse.zip (List.range' 1 ds.length)).map (fun p => p.1 * p.2)).sum % 10) == c

/-- A row of the dataframe: an association list from column names to cell
values.  Filtering rows keeps every row value intact, which models that the
pandas row filter keeps all original columns. -/
def Row := List (String × String)

instance : DecidableEq Row := by unfold Row; exact inferInstance

/-- Reading the cell of a row in a given column; none models the KeyError
raised by pandas when the column is missing. -/
def getCol (row : Row) (column : String) : Option String :=
  (row.find? (fun p => p.1 == column)).map Prod.snd

/-- The column of validation booleans, as dataframe[column].apply applies
validate_cas_number to every cell in row order; none models the exception
raised on a missing column or malformed cell. -/
def column_validities : List Row → String → Option (List Bool)
  | [], _ => some []
  | row :: rest, column =>
    match getCol row column with
    | none => none
    | some v =>
      match validate_cas_number v, column_validities rest column with
      | some b, some bs => some (b :: bs)
      | _, _ => none

/-- The outcome of find_invalid_cas: either the printed all-valid signal
(the Python function prints and returns None) or the filtered subset of
rows. -/
inductive FindInvalidResult
  | allValid
  | invalid (rows : List Row)
deriving DecidableEq

/-- Embedding of find_invalid_cas: compute the validity mask, keep the
rows where the mask is false (in order, rows intact), and signal allValid
when that subset is empty. -/
def find_invalid_cas (dataframe : List Row) (column : String) :
    Option FindInvalidResult :=
  match column_validities dataframe column with
  | none => none
  | some valid_mask =>
    let invalid_cas_df :=
      ((dataframe.zip valid_mask).filter (fun p => !p.2)).map (fun p => p.1)
    some (if invalid_cas_df.isEmpty then .allValid else .invalid invalid_cas_df)

/-- The example dataframe built in the module (the data dictionary of the
example usage). -/
def exampleData : List Row :=
  [[("CAS Number", "7732-18-5"), ("Chemical", "Water")],
   [("CAS Number", "80-05-7"), ("Chemical", "Bisphenol A")],
   [("CAS Number", "123-45-6"), ("Chemical", "Fictional Compound")],
   [("CAS Number", "50-00-0"), ("Chemical", "Formaldehyde")]]

end CASVerification

namespace HMDB

/-- The a element inside a result link of the parsed HMDB search page,
with the value of its href attribute when present (a.get of href yields
None when the attribute is absent). -/
structure SearchAnchor where
  href : Option String
deriving DecidableEq

/-- The element of class result-link of the parsed search page, with its
first a child when present. -/
structure ResultLink where
  anchor : Option SearchAnchor
deriving DecidableEq

/-- The part of a parsed HMDB search page that extract_hmdb_id inspects:
the first element of class result-link, if any. -/
structure SearchPage where
  result_link : Option ResultLink
deriving DecidableEq

/-- Outcome of the GET of a search page: a parsed page, or an exception
raised by requests.get or raise_for_status carrying its message. -/
inductive SearchOutcome
  | ok (page : SearchPage)
  | exn (msg : String)

/-- The single-quote character stripped from CAS ids. -/
def singleQuoteChar : Char := Char.ofNat 39

/-- Python strip of single quotes: remove every leading and trailing
single-quote character. -/
def stripQuotes (s : String) : String :=
  let l := s.toList.dropWhile (fun c => c == singleQuoteChar)
  ((l.reverse.dropWhile (fun c => c == singleQuoteChar)).reverse).asString

/-- The search URL built by extract_hmdb_id around the stripped CAS
id. -/
def hmdb_search_url (casId : String) : String :=
  "https://hmdb.ca/unearth/q?utf8=%E2%9C%93&query=" ++ "\"" ++ casId ++ "\"" ++
    "&searcher=metabolites&button="

/-- The trailing path segment of an href, as split on slash followed by
taking the last piece. -/
def lastPathSegment (href : String) : String :=
  (href.splitOn "/").getLastD ""

/-- The message of the AttributeError raised by split on a None href. -/
def noneTypeSplitMsg : String :=
  "'NoneType' object has no attribute 'split'"

/-- Embedding of extract_hmdb_id over a request oracle: strip quotes,
query the search page; a missing result link or missing a child yields the
NotFound sentinel, a present a child with an href yields the trailing path
segment of the href, a missing href attribute makes split raise inside the
try and is rendered as an Error string, and any request exception is
rendered as an Error string carrying its message. -/
def extract_hmdb_id (get : String → SearchOutcome) (CASid : String) : String :=
  let c := stripQuotes CASid
  match get (hmdb_search_url c) with
  | .exn msg => "Error: " ++ msg
  | .ok page =>
    match page.result_link with
    | none => "HMDB ID not found"
    | some link =>
      match link.anchor with
      | none => "HMDB ID not found"
      | some a =>
        match a.href with
        | none => "Error: " ++ noneTypeSplitMsg
        | some href => lastPathSegment href

/-- A th table-header cell of the parsed status page: its string content
and, when present, the text of the adjacent td cell
(find_next_sibling). -/
structure ThCell where
  text : String
  nextTd : Option String
deriving DecidableEq

/-- The part of a parsed HMDB metabolite page that fetch_HMDB_status
inspects: the th cells of the document in order. -/
abbrev StatusPage := List ThCell

/-- Embedding of soup.find with tag th and string Status: the first th
cell whose string content is exactly Status, if any. -/
def find_status_th (page : StatusPage) : Option ThCell :=
  page.find? (fun th => th.text == "Status")

/-- Outcome of one HTTP GET of a status page, as seen by the scraping
code: either a parsed page, or an exception raised by requests.get or
raise_for_status carrying its message. -/
inductive GetOutcome
  | ok (page : StatusPage)
  | httpError (msg : String)

/-- The URL requested by fetch_HMDB_status for a given HMDB id. -/
def hmdb_status_url (hmdb_id : String) : String :=
  "https://hmdb.ca/metabolites/" ++ hmdb_id

/-- The message of the AttributeError raised by find_next_sibling on the
None returned by soup.find when the page has no Status th cell. -/
def noneTypeSiblingMsg : String :=
  "'NoneType' object has no attribute 'find_next_sibling'"

/-- Embedding of fetch_HMDB_status over a request oracle get.  Every
exception is caught and rendered as an Error string, so the embedding is a
total function into String: nothing is raised to the caller.  When the
page has no Status th, soup.find returns None and find_next_sibling on it
raises AttributeError, which the except clause turns into an Error string;
the Not Found return is reached only when the th exists but has no
adjacent td. -/
def fetch_HMDB_status (get : String → GetOutcome) (hmdb_id : String) : String :=
  let full_url := hmdb_status_url hmdb_id
  match get full_url with
  | .httpError msg => "Error: " ++ msg
  | .ok page =>
    match find_status_th page with
    | none => "Error: " ++ noneTypeSiblingMsg
    | some th =>
      match th.nextTd with
      | none => "Not Found"
      | some td => td.trim

/-- Instrumented fetch_HMDB_status: the value together with the list of
URLs it requests (always exactly the one GET of the status page). -/
def fetch_HMDB_statusL (get : String → GetOutcome) (hmdb_id : String) :
    String × List String :=
  (fetch_HMDB_status get hmdb_id, [hmdb_status_url hmdb_id])

/-- Embedding of the inner check_and_fetch_status of add_status_to_df,
instrumented with the list of arguments passed to fetch_HMDB_status and
the list of URLs requested: any id other than the literal sentinel is
looked up, the sentinel short-circuits to None with no call and no
request. -/
def check_and_fetch_statusL (get : String → GetOutcome) (hmdb_id : String) :
    Option String × List String × List String :=
  if hmdb_id ≠ "HMDB ID not found" then
    let r := fetch_HMDB_statusL get hmdb_id
    (some r.1, [hmdb_id], r.2)
  else
    (none, [], [])

/-- Embedding of add_status_to_df, per row: progress_apply maps
check_and_fetch_status over the id column in row order.  Each entry is the
written HMDB_status value, the fetch_HMDB_status invocations made for that
row, and the URLs requested for that row. -/
def add_status_rows (get : String → GetOutcome) (idColumn : List String) :
    List (Option String × List String × List String) :=
  idColumn.map (check_and_fetch_statusL get)

/-- The HMDB_status column written by add_status_to_df. -/
def add_status_to_df (get : String → GetOutcome) (idColumn : List String) :
    List (Option String) :=
  (add_status_rows get idColumn).map (fun r => r.1)

/-- A request oracle whose every response parses to a page with no th
cell at all. -/
def emptyPageGet : String → GetOutcome := fun _ => .ok []

/-- A request oracle whose every response parses to a page with a Status
th cell that has no adjacent td. -/
def statusOnlyGet : String → GetOutcome := fun _ => .ok [⟨"Status", none⟩]

end HMDB

namespace PubMed

/-- An element of a parsed PubMed results page, with its tag, class list
and content text (the contents of a text-only element is its text). -/
structure HtmlElem where
  tag : String
  classes : List String
  contents : String
deriving DecidableEq

/-- The parsed page: its elements in document order. -/
abbrev Page := List HtmlElem

/-- Embedding of soup.find for a span with class value: the first such
element, if any. -/
def find_value_span (page : Page) : Option HtmlElem :=
  page.find? (fun e => e.tag == "span" && e.classes.contains "value")

/-- Outcome of one GET in the PubMed batch: a timeout (the only request
exception the source catches) or a parsed page. -/
inductive Outcome
  | timeout
  | success (page : Page)

/-- One recorded entry of the result list: the NA sentinel, the TIMEOUT
sentinel, or the contents of the value span. -/
inductive NResult
  | NA
  | TIMEOUT
  | result (contents : String)
deriving DecidableEq

/-- Space-to-plus substitution applied to the chemical name before it is
embedded in the URL. -/
def plusName (name : String) : String :=
  (name.toList.map (fun c => if c == ' ' then '+' else c)).asString

/-- The URL built for one row: the base search URL, the quoted
parenthesised name, and the optional extra search string. -/
def pubmed_url (search_url name : String) (search_string : Option String) :
    String :=
  let n := plusName name
  match search_string with
  | some s => search_url ++ "(\"" ++ n ++ "\")" ++ s
  | none => search_url ++ "(\"" ++ n ++ "\")"

/-- The entry recorded for one processed row, over a request oracle fetch
indexed by row index and URL: a timeout records TIMEOUT; a response whose
page has a value span records its contents; a missing span (the inner
except around soup.find) records NA. -/
def process_row (fetch : Nat → String → Outcome) (index : Nat) (url : String) :
    NResult :=
  match fetch index url with
  | .timeout => .TIMEOUT
  | .success page =>
    match find_value_span page with
    | some e => .result e.contents
    | none => .NA

/-- One iteration of the loop of PubMed_results_biomon_terms: the state is
the n_results list together with the instrumentation log of issued
requests (index and URL); an index below resume_from is skipped with no
request, any other row issues its GET and writes its entry at its
index. -/
def pubmed_step (fetch : Nat → String → Outcome) (search_url : String)
    (search_string : Option String) (resume_from : Nat)
    (st : List NResult × List (Nat × String)) (p : Nat × String) :
    List NResult × List (Nat × String) :=
  if p.1 < resume_from then st
  else
    let url := pubmed_url search_url p.2 search_string
    (st.1.set p.1 (process_row fetch p.1 url), st.2 ++ [(p.1, url)])

/-- Embedding of PubMed_results_biomon_terms over the list of values of
the NAME column: the result list is prefilled with NA sentinels, and the
loop over the enumerated rows writes each processed entry in place.  The
second component is the instrumentation log of requests. -/
def PubMed_results_biomon_terms (fetch : Nat → String → Outcome)
    (search_url : String) (df : List String) (search_string : Option String)
    (resume_from : Nat) : List NResult × List (Nat × String) :=
  let n_results := List.replicate df.length NResult.NA
  df.enum.foldl (pubmed_step fetch search_url search_string resume_from)
    (n_results, [])

/-- A request oracle that times out on every request. -/
def timeoutFetch : Nat → String → Outcome := fun _ _ => .timeout

/-- A page holding one span of class value with contents 42. -/
def spanPage : Page := [⟨"span", ["value"], "42"⟩]

/-- A request oracle that answers every request with spanPage. -/
def spanPageFetch : Nat → String → Outcome := fun _ _ => .success spanPage

/-- A small NAME column used to instantiate the batch theorems. -/
def demoNames : List String := ["bisphenol a", "water"]

end PubMed

namespace CASVerification

theorem charsToDigits_all_digits (l : List Char) (h : ∀ c ∈ l, c.isDigit) :
    charsToDigits l = some (l.map (fun c => c.toNat - 48)) := by
  induction l with
  | nil => rfl
  | cons c cs ih =>
    have hc : c.isDigit := h c (by simp)
    have hcs := ih (fun x hx => h x (by simp [hx]))
    simp [charsToDigits, charToDigit, hc, hcs]

theorem charsToDigits_of_not_digit (l : List Char) (c : Char) (hc : c ∈ l)
    (hd : ¬ c.isDigit) : charsToDigits l = none := by
  induction l with
  | nil => cases hc
  | cons a as ih =>
    rcases List.mem_cons.mp hc with rfl | hmem
    · simp [charsToDigits, charToDigit, hd]
    · cases ha : charToDigit a <;> simp [charsToDigits, ha, ih hmem]

theorem validate_wf_eq (s : String) (h : wellFormedCAS s = true) :
    validate_cas_number s =
      some (casChecksumValidSpec
        ((s.toList.filter (fun c => c ≠ '-')).dropLast.map (fun c => c.toNat - 48))
        (((s.toList.filter (fun c => c ≠ '-')).getLastD '0').toNat - 48)) := by
  unfold wellFormedCAS at h
  set l := s.toList.filter (fun c => c ≠ '-') with hl
  rw [Bool.and_eq_true] at h
  obtain ⟨hne, hall⟩ := h
  have hne' : l ≠ [] := by
    intro he
    rw [he] at hne
    simp at hne
  have hall' : ∀ c ∈ l, c.isDigit := List.all_eq_true.mp hall
  obtain ⟨a, ha⟩ : ∃ a, l.getLast? = some a := by
    cases hgl : l.getLast? with
    | none => exact absurd (List.getLast?_eq_none_iff.mp hgl) hne'
    | some a => exact ⟨a, rfl⟩
  have hadig : a.isDigit := hall' a (List.mem_of_mem_getLast? ha)
  have hD : l.getLastD '0' = a := by
    rw [List.getLastD_eq_getLast?, ha]
    rfl
  unfold validate_cas_number
  rw [← hl]
  simp only [ha,
    show charToDigit a = some (a.toNat - 48) by simp [charToDigit, hadig],
    charsToDigits_all_digits l.dropLast
      (fun c hc => hall' c (List.mem_of_mem_dropLast hc)),
    hD]
  rfl

/-- C1: validate_cas_number strips hyphens, takes the last digit as the
check digit c, reverses the remaining digits so the digit nearest the
check digit has weight 1, sums digit*weight, and returns true iff that sum
mod 10 equals c; in particular the three example values. -/
theorem validate_cas_number_checksum (s : String) (h : wellFormedCAS s = true) :
    validate_cas_number s =
      some (casChecksumValidSpec
        ((s.toList.filter (fun c => c ≠ '-')).dropLast.map (fun c => c.toNat - 48))
        (((s.toList.filter (fun c => c ≠ '-')).getLastD '0').toNat - 48)) ∧
    validate_cas_number "7732-18-5" = some true ∧
    validate_cas_number "80-05-7" = some true ∧
    validate_cas_number "123-45-6" = some false :=
  ⟨validate_wf_eq s h, by decide, by decide, by decide⟩

theorem validate_cas_number_checksum_witness :
    wellFormedCAS "7732-18-5" = true ∧
    (validate_cas_number "7732-18-5" =
      some (casChecksumValidSpec
        (("7732-18-5".toList.filter (fun c => c ≠ '-')).dropLast.map
          (fun c => c.toNat - 48))
        ((("7732-18-5".toList.filter (fun c => c ≠ '-')).getLastD '0').toNat - 48)) ∧
    validate_cas_number "7732-18-5" = some true ∧
    validate_cas_number "80-05-7" = some true ∧
    validate_cas_number "123-45-6" = some false) :=
  ⟨by decide, validate_cas_number_checksum "7732-18-5" (by decide)⟩

/-- C3: two CAS strings with the same digit sequence (hyphens placed
anywhere or absent) validate identically; in particular the example
pair. -/
theorem validate_cas_number_hyphen_insensitive (s t : String)
    (h : s.toList.filter (fun c => c ≠ '-') = t.toList.filter (fun c => c ≠ '-')) :
    validate_cas_number s = validate_cas_number t ∧
    validate_cas_number "7732185" = validate_cas_number "7732-18-5" := by
  refine ⟨?_, by decide⟩
  unfold validate_cas_number
  rw [h]

/-- C9 counterexample: the input with no digits before the check digit
does not raise; validate_cas_number returns false silently on it. -/
theorem validate_cas_number_malformed_counterexample :
    validate_cas_number "5" = some false ∧ validate_cas_number "5" ≠ none := by
  exact ⟨by decide, by decide⟩

/-- C9 amended: for an empty digit string or a non-digit character the
function raises (an uncaught fault, modelled by none); but an input with
no digits before the check digit does not raise: it silently returns true
iff the check digit is 0, so false for every other single-digit input. -/
theorem validate_cas_number_malformed_amended (s : String) :
    (s.toList.filter (fun c => c ≠ '-') = [] → validate_cas_number s = none) ∧
    (∀ c ∈ s.toList.filter (fun c => c ≠ '-'), ¬ c.isDigit →
      validate_cas_number s = none) ∧
    (∀ c, s.toList.filter (fun c => c ≠ '-') = [c] → c.isDigit →
      validate_cas_number s = some (0 == c.toNat - 48)) := by
  set l := s.toList.filter (fun c => c ≠ '-') with hl
  refine ⟨?_, ?_, ?_⟩
  · intro he
    unfold validate_cas_number
    rw [← hl, he]
    rfl
  · intro c hc hd
    have hne : l ≠ [] := by
      intro he
      rw [he] at hc
      cases hc
    obtain ⟨a, ha⟩ : ∃ a, l.getLast? = some a := by
      cases hgl : l.getLast? with
      | none => exact absurd (List.getLast?_eq_none_iff.mp hgl) hne
      | some a => exact ⟨a, rfl⟩
    by_cases hadig : a.isDigit
    · have hsplit : l.dropLast ++ [a] = l := List.dropLast_append_getLast? a ha
      have hcdrop : c ∈ l.dropLast := by
        rcases List.mem_append.mp (hsplit ▸ hc) with hm | hm
        · exact hm
        · rcases List.mem_singleton.mp hm with rfl
          exact absurd hadig hd
      unfold validate_cas_number
      rw [← hl]
      simp only [ha, show charToDigit a = some (a.toNat - 48) by
          simp [charToDigit, hadig],
        charsToDigits_of_not_digit l.dropLast c hcdrop hd]
    · unfold validate_cas_number
      rw [← hl]
      simp only [ha, show charToDigit a = none by simp [charToDigit, hadig]]
  · intro c hc hd
    unfold validate_cas_number
    rw [← hl, hc]
    simp [charToDigit, hd, charsToDigits]

theorem validate_cas_number_malformed_amended_witness :
    ("ab-c".toList.filter (fun c => c ≠ '-') ≠ [] ∧
      'a' ∈ "ab-c".toList.filter (fun c => c ≠ '-') ∧ ¬ 'a'.isDigit) ∧
    validate_cas_number "ab-c" = none :=
  ⟨⟨by decide, by decide, by decide⟩,
    (validate_cas_number_malformed_amended "ab-c").2.1 'a' (by decide) (by decide)⟩

theorem validate_cas_number_hyphen_insensitive_witness :
    ("7732185".toList.filter (fun c => c ≠ '-') =
      "7732-18-5".toList.filter (fun c => c ≠ '-')) ∧
    (validate_cas_number "7732185" = validate_cas_number "7732-18-5" ∧
     validate_cas_number "7732185" = validate_cas_number "7732-18-5") :=
  ⟨by decide, validate_cas_number_hyphen_insensitive "7732185" "7732-18-5" (by decide)⟩

theorem column_validities_all_some (df : List Row) (column : String)
    (h : ∀ row ∈ df, ((getCol row column).bind validate_cas_number).isSome) :
    column_validities df column =
      some (df.map
        (fun row => ((getCol row column).bind validate_cas_number).getD true)) := by
  induction df with
  | nil => rfl
  | cons r rest ih =>
    have hr := h r (by simp)
    have hrest := ih (fun x hx => h x (by simp [hx]))
    cases hg : getCol r column with
    | none =>
      rw [hg] at hr
      simp at hr
    | some v =>
      rw [hg] at hr
      simp only [Option.some_bind] at hr
      cases hv : validate_cas_number v with
      | none =>
        rw [hv] at hr
        simp at hr
      | some b =>
        simp [column_validities, hg, hv, hrest]

theorem zip_self_mask_filter (df : List Row) (g : Row → Bool) :
    ((df.zip (df.map g)).filter (fun p => !p.2)).map (fun p => p.1) =
      df.filter (fun row => !g row) := by
  induction df with
  | nil => rfl
  | cons r rest ih =>
    cases hgr : g r <;>
      simp [List.filter_cons, hgr, ih]

/-- C2: on a table whose cells in the given column are well-formed CAS
strings, find_invalid_cas returns exactly the rows on which
validate_cas_number is false, in original order with all original columns
(the rows themselves are kept intact by the filter), and signals allValid
instead of returning a subset when no row fails. -/
theorem find_invalid_cas_exact (df : List Row) (column : String)
    (h : ∀ row ∈ df, ∃ v, getCol row column = some v ∧ wellFormedCAS v = true) :
    find_invalid_cas df column =
      some
        (if (df.filter (fun row =>
              (getCol row column).bind validate_cas_number = some false)).isEmpty
          then .allValid
          else .invalid (df.filter (fun row =>
            (getCol row column).bind validate_cas_number = some false))) := by
  have hsome : ∀ row ∈ df, ((getCol row column).bind validate_cas_number).isSome := by
    intro row hrow
    obtain ⟨v, hv, hwf⟩ := h row hrow
    rw [hv, Option.some_bind, validate_wf_eq v hwf]
    rfl
  unfold find_invalid_cas
  rw [column_validities_all_some df column hsome]
  simp only
  rw [zip_self_mask_filter df
    (fun row => ((getCol row column).bind validate_cas_number).getD true)]
  rw [List.filter_congr (fun row hrow => ?_)]
  obtain ⟨v, hv, hwf⟩ := h row hrow
  rw [hv, Option.some_bind, validate_wf_eq v hwf]
  simp

theorem find_invalid_cas_exact_witness :
    (∀ row ∈ exampleData, ∃ v,
      getCol row "CAS Number" = some v ∧ wellFormedCAS v = true) ∧
    find_invalid_cas exampleData "CAS Number" =
      some
        (if (exampleData.filter (fun row =>
              (getCol row "CAS Number").bind validate_cas_number = some false)).isEmpty
          then .allValid
          else .invalid (exampleData.filter (fun row =>
            (getCol row "CAS Number").bind validate_cas_number = some false))) := by
  have hh : ∀ row ∈ exampleData, ∃ v,
      getCol row "CAS Number" = some v ∧ wellFormedCAS v = true := by
    intro row hrow
    simp only [exampleData, List.mem_cons, List.not_mem_nil, or_false] at hrow
    rcases hrow with rfl | rfl | rfl | rfl
    · exact ⟨"7732-18-5", by decide, by decide⟩
    · exact ⟨"80-05-7", by decide, by decide⟩
    · exact ⟨"123-45-6", by decide, by decide⟩
    · exact ⟨"50-00-0", by decide, by decide⟩
  exact ⟨hh, find_invalid_cas_exact exampleData "CAS Number" hh⟩

end CASVerification

namespace HMDB

theorem add_status_rows_get (get : String → GetOutcome) (idColumn : List String)
    (i : Nat) (v : String) (hv : idColumn.get? i = some v) :
    (add_status_rows get idColumn).get? i =
      some (check_and_fetch_statusL get v) ∧
    (add_status_to_df get idColumn).get? i =
      some (check_and_fetch_statusL get v).1 := by
  have h1 : (add_status_rows get idColumn).get? i =
      some (check_and_fetch_statusL get v) := by
    unfold add_status_rows
    rw [List.get?_map, hv]
    rfl
  refine ⟨h1, ?_⟩
  unfold add_status_to_df
  rw [List.get?_map, h1]
  rfl

/-- C6: in add_status_to_df, a row whose id cell is the literal sentinel
HMDB ID not found never invokes fetch_HMDB_status (its invocation and
request logs are empty) and has None written as its status; every other
row invokes fetch_HMDB_status exactly once, with the cell value, and has
the fetched status written. -/
theorem add_status_to_df_short_circuit (get : String → GetOutcome)
    (idColumn : List String) (i : Nat) (v : String)
    (hv : idColumn.get? i = some v) :
    (v = "HMDB ID not found" →
      (add_status_rows get idColumn).get? i = some (none, [], []) ∧
      (add_status_to_df get idColumn).get? i = some none) ∧
    (v ≠ "HMDB ID not found" →
      (add_status_rows get idColumn).get? i =
        some (some (fetch_HMDB_status get v), [v], [hmdb_status_url v]) ∧
      (add_status_to_df get idColumn).get? i =
        some (some (fetch_HMDB_status get v))) := by
  obtain ⟨h1, h2⟩ := add_status_rows_get get idColumn i v hv
  constructor
  · intro hsent
    rw [h1, h2]
    constructor <;> simp [check_and_fetch_statusL, hsent]
  · intro hne
    rw [h1, h2]
    constructor <;> simp [check_and_fetch_statusL, fetch_HMDB_statusL, hne]

theorem add_status_to_df_short_circuit_witness :
    (["HMDB ID not found", "HMDB0000122"].get? 0 = some "HMDB ID not found") ∧
    (("HMDB ID not found" = "HMDB ID not found" →
      (add_status_rows emptyPageGet ["HMDB ID not found", "HMDB0000122"]).get? 0 =
        some (none, [], []) ∧
      (add_status_to_df emptyPageGet ["HMDB ID not found", "HMDB0000122"]).get? 0 =
        some none) ∧
    ("HMDB ID not found" ≠ "HMDB ID not found" →
      (add_status_rows emptyPageGet ["HMDB ID not found", "HMDB0000122"]).get? 0 =
        some (some (fetch_HMDB_status emptyPageGet "HMDB ID not found"),
          ["HMDB ID not found"], [hmdb_status_url "HMDB ID not found"]) ∧
      (add_status_to_df emptyPageGet ["HMDB ID not found", "HMDB0000122"]).get? 0 =
        some (some (fetch_HMDB_status emptyPageGet "HMDB ID not found")))) :=
  ⟨rfl, add_status_to_df_short_circuit emptyPageGet
    ["HMDB ID not found", "HMDB0000122"] 0 "HMDB ID not found" rfl⟩

/-- C7 counterexample: on a fetched page with no Status th cell,
fetch_HMDB_status does not return the Not Found sentinel: soup.find
returns None, find_next_sibling on it raises AttributeError, and the
except clause renders the caught message as an Error string. -/
theorem fetch_HMDB_status_counterexample :
    fetch_HMDB_status emptyPageGet "HMDB0000001" =
      "Error: " ++ noneTypeSiblingMsg ∧
    fetch_HMDB_status emptyPageGet "HMDB0000001" ≠ "Not Found" :=
  ⟨rfl, by decide⟩

/-- C7 amended: fetch_HMDB_status never raises (it is a total function
into strings); an HTTP exception is returned as an Error string carrying
its message; a page whose Status th is absent makes the parse chain raise
AttributeError, returned as an Error string and not as the Not Found
sentinel; the Not Found sentinel is returned exactly when the Status th
exists but has no adjacent td; and a present adjacent td yields its
stripped text. -/
theorem fetch_HMDB_status_cases (get : String → GetOutcome) (hmdb_id : String) :
    (∀ msg, get (hmdb_status_url hmdb_id) = .httpError msg →
      fetch_HMDB_status get hmdb_id = "Error: " ++ msg) ∧
    (∀ page, get (hmdb_status_url hmdb_id) = .ok page →
      find_status_th page = none →
      fetch_HMDB_status get hmdb_id = "Error: " ++ noneTypeSiblingMsg ∧
      fetch_HMDB_status get hmdb_id ≠ "Not Found") ∧
    (∀ page th, get (hmdb_status_url hmdb_id) = .ok page →
      find_status_th page = some th → th.nextTd = none →
      fetch_HMDB_status get hmdb_id = "Not Found") ∧
    (∀ page th td, get (hmdb_status_url hmdb_id) = .ok page →
      find_status_th page = some th → th.nextTd = some td →
      fetch_HMDB_status get hmdb_id = td.trim) := by
  refine ⟨?_, ?_, ?_, ?_⟩
  · intro msg hmsg
    simp only [fetch_HMDB_status, hmsg]
  · intro page hok hth
    constructor
    · simp only [fetch_HMDB_status, hok, hth]
    · simp only [fetch_HMDB_status, hok, hth]
      decide
  · intro page th hok hth htd
    simp only [fetch_HMDB_status, hok, hth, htd]
  · intro page th td hok hth htd
    simp only [fetch_HMDB_status, hok, hth, htd]

theorem fetch_HMDB_status_cases_witness :
    (statusOnlyGet (hmdb_status_url "HMDB0000001") = .ok [⟨"Status", none⟩] ∧
      find_status_th [⟨"Status", none⟩] = some ⟨"Status", none⟩ ∧
      (⟨"Status", none⟩ : ThCell).nextTd = none) ∧
    fetch_HMDB_status statusOnlyGet "HMDB0000001" = "Not Found" :=
  ⟨⟨rfl, rfl, rfl⟩,
    (fetch_HMDB_status_cases statusOnlyGet "HMDB0000001").2.2.1
      [⟨"Status", none⟩] ⟨"Status", none⟩ rfl rfl rfl⟩

/-- C10: the short circuit of add_status_to_df compares against the exact
sentinel only, so a row whose id cell is an Error string from the prior
step (extract_hmdb_id renders every caught exception as the string Error:
followed by its message) still invokes fetch_HMDB_status exactly once with
that error string as the key and issues the GET of the metabolite page URL
built from it. -/
theorem add_status_error_sentinel_still_fetched (get : String → GetOutcome)
    (idColumn : List String) (i : Nat) (v : String)
    (hv : idColumn.get? i = some v) (herr : v.toList.take 6 = "Error:".toList) :
    ((add_status_rows get idColumn).get? i =
      some (some (fetch_HMDB_status get v), [v], [hmdb_status_url v]) ∧
    (add_status_to_df get idColumn).get? i =
      some (some (fetch_HMDB_status get v)) ∧
    hmdb_status_url v = "https://hmdb.ca/metabolites/" ++ v) ∧
    (∀ sget c msg, sget (hmdb_search_url (stripQuotes c)) = .exn msg →
      extract_hmdb_id sget c = "Error: " ++ msg) := by
  have hne : v ≠ "HMDB ID not found" := by
    intro he
    rw [he] at herr
    exact absurd herr (by decide)
  obtain ⟨h1, h2⟩ := add_status_rows_get get idColumn i v hv
  refine ⟨⟨?_, ?_, rfl⟩, ?_⟩
  · rw [h1]
    simp [check_and_fetch_statusL, fetch_HMDB_statusL, hne]
  · rw [h2]
    simp [check_and_fetch_statusL, fetch_HMDB_statusL, hne]
  · intro sget c msg hmsg
    simp only [extract_hmdb_id, hmsg]

theorem add_status_error_sentinel_still_fetched_witness :
    (["Error: boom"].get? 0 = some "Error: boom" ∧
      "Error: boom".toList.take 6 = "Error:".toList) ∧
    (((add_status_rows emptyPageGet ["Error: boom"]).get? 0 =
      some (some (fetch_HMDB_status emptyPageGet "Error: boom"),
        ["Error: boom"], [hmdb_status_url "Error: boom"]) ∧
    (add_status_to_df emptyPageGet ["Error: boom"]).get? 0 =
      some (some (fetch_HMDB_status emptyPageGet "Error: boom")) ∧
    hmdb_status_url "Error: boom" = "https://hmdb.ca/metabolites/" ++ "Error: boom") ∧
    (∀ sget c msg, sget (hmdb_search_url (stripQuotes c)) = .exn msg →
      extract_hmdb_id sget c = "Error: " ++ msg)) :=
  ⟨⟨rfl, by decide⟩,
    add_status_error_sentinel_still_fetched emptyPageGet ["Error: boom"] 0
      "Error: boom" rfl (by decide)⟩

end HMDB

namespace PubMed

theorem set_append_cons {α : Type} (l : List α) (a b : α) (t : List α) :
    (l ++ a :: t).set l.length b = l ++ b :: t := by
  induction l with
  | nil => rfl
  | cons x xs ih => simp [List.set, ih]

/-- The map and filterMap view of one processed or skipped row. -/
def row_entry (fetch : Nat → String → Outcome) (search_url : String)
    (search_string : Option String) (resume_from : Nat) (p : Nat × String) :
    NResult :=
  if p.1 < resume_from then NResult.NA
  else process_row fetch p.1 (pubmed_url search_url p.2 search_string)

/-- The request issued for one row, none when the row is skipped. -/
def row_request (search_url : String) (search_string : Option String)
    (resume_from : Nat) (p : Nat × String) : Option (Nat × String) :=
  if p.1 < resume_from then none
  else some (p.1, pubmed_url search_url p.2 search_string)

theorem pubmed_foldl_char (fetch : Nat → String → Outcome) (su : String)
    (ss : Option String) (r : Nat) :
    ∀ (df : List String) (pre : List NResult) (log : List (Nat × String)),
    (List.enumFrom pre.length df).foldl (pubmed_step fetch su ss r)
        (pre ++ List.replicate df.length NResult.NA, log) =
      (pre ++ (List.enumFrom pre.length df).map (row_entry fetch su ss r),
       log ++ (List.enumFrom pre.length df).filterMap (row_request su ss r)) := by
  intro df
  induction df with
  | nil =>
    intro pre log
    simp
  | cons name rest ih =>
    intro pre log
    have hlen1 : ∀ x : NResult, (pre ++ [x]).length = pre.length + 1 := by simp
    simp only [List.enumFrom, List.length_cons, List.replicate_succ, List.foldl_cons]
    by_cases hr : pre.length < r
    · have hstep : pubmed_step fetch su ss r
          (pre ++ NResult.NA :: List.replicate rest.length NResult.NA, log)
          (pre.length, name) =
          (pre ++ NResult.NA :: List.replicate rest.length NResult.NA, log) := by
        simp [pubmed_step, hr]
      have hih := ih (pre ++ [NResult.NA]) log
      rw [hlen1] at hih
      rw [hstep,
        show pre ++ NResult.NA :: List.replicate rest.length NResult.NA =
          (pre ++ [NResult.NA]) ++ List.replicate rest.length NResult.NA from by simp,
        hih]
      simp [row_entry, row_request, hr]
    · have hstep : pubmed_step fetch su ss r
          (pre ++ NResult.NA :: List.replicate rest.length NResult.NA, log)
          (pre.length, name) =
          ((pre ++ [process_row fetch pre.length (pubmed_url su name ss)]) ++
              List.replicate rest.length NResult.NA,
            log ++ [(pre.length, pubmed_url su name ss)]) := by
        simp only [pubmed_step, hr, if_neg, ite_false]
        rw [set_append_cons]
        simp
      have hih := ih (pre ++ [process_row fetch pre.length (pubmed_url su name ss)])
        (log ++ [(pre.length, pubmed_url su name ss)])
      rw [hlen1] at hih
      rw [hstep, hih]
      simp [row_entry, row_request, hr]

theorem PubMed_results_eq (fetch : Nat → String → Outcome) (su : String)
    (df : List String) (ss : Option String) (r : Nat) :
    PubMed_results_biomon_terms fetch su df ss r =
      (df.enum.map (row_entry fetch su ss r),
       df.enum.filterMap (row_request su ss r)) := by
  have h := pubmed_foldl_char fetch su ss r df [] []
  simpa [PubMed_results_biomon_terms, List.enum] using h

theorem PubMed_results_get? (fetch : Nat → String → Outcome) (su : String)
    (df : List String) (ss : Option String) (r : Nat) (i : Nat) :
    (PubMed_results_biomon_terms fetch su df ss r).1.get? i =
      (df.get? i).map (fun v => row_entry fetch su ss r (i, v)) := by
  rw [PubMed_results_eq]
  simp only
  rw [List.get?_map, List.get?_enum]
  cases df.get? i <;> rfl

theorem PubMed_log_not_skipped (fetch : Nat → String → Outcome) (su : String)
    (df : List String) (ss : Option String) (r : Nat) (i : Nat) (u : String)
    (hi : i < r) :
    (i, u) ∉ (PubMed_results_biomon_terms fetch su df ss r).2 := by
  rw [PubMed_results_eq]
  intro hmem
  obtain ⟨p, hp, hpe⟩ := List.mem_filterMap.mp hmem
  unfold row_request at hpe
  by_cases h : p.1 < r
  · rw [if_pos h] at hpe
    cases hpe
  · rw [if_neg h] at hpe
    injection hpe with h2
    have : p.1 = i := congrArg Prod.fst h2
    omega

theorem PubMed_log_mem (fetch : Nat → String → Outcome) (su : String)
    (df : List String) (ss : Option String) (r : Nat) (i : Nat) (v : String)
    (hv : df.get? i = some v) (hik : r ≤ i) :
    (i, pubmed_url su v ss) ∈ (PubMed_results_biomon_terms fetch su df ss r).2 := by
  rw [PubMed_results_eq]
  refine List.mem_filterMap.mpr ⟨(i, v), ?_, ?_⟩
  · have h := List.get?_enum df i
    rw [hv] at h
    exact List.get?_mem h
  · unfold row_request
    rw [if_neg (by omega)]

/-- C4: with resume_from = k at most the row count, the returned list has
one entry per row; every index below k keeps the prefilled NA sentinel and
issues no request; every index at or above k issues its request and records
the real lookup attempt for its row, and its entry coincides with the entry
of an uninterrupted run with resume_from = 0 receiving the same
responses. -/
theorem PubMed_results_resume (fetch : Nat → String → Outcome) (su : String)
    (df : List String) (ss : Option String) (k : Nat) (hk : k ≤ df.length) :
    (PubMed_results_biomon_terms fetch su df ss k).1.length = df.length ∧
    (∀ i, i < k →
      (PubMed_results_biomon_terms fetch su df ss k).1.get? i = some NResult.NA ∧
      ∀ u, (i, u) ∉ (PubMed_results_biomon_terms fetch su df ss k).2) ∧
    (∀ i v, k ≤ i → df.get? i = some v →
      (PubMed_results_biomon_terms fetch su df ss k).1.get? i =
        some (process_row fetch i (pubmed_url su v ss)) ∧
      (i, pubmed_url su v ss) ∈ (PubMed_results_biomon_terms fetch su df ss k).2 ∧
      (PubMed_results_biomon_terms fetch su df ss k).1.get? i =
        (PubMed_results_biomon_terms fetch su df ss 0).1.get? i) := by
  refine ⟨?_, ?_, ?_⟩
  · rw [PubMed_results_eq]
    simp
  · intro i hi
    refine ⟨?_, fun u => PubMed_log_not_skipped fetch su df ss k i u hi⟩
    rw [PubMed_results_get?]
    obtain ⟨v, hv⟩ : ∃ v, df.get? i = some v := by
      cases hv : df.get? i with
      | none =>
        have := List.get?_eq_none.mp hv
        omega
      | some v => exact ⟨v, rfl⟩
    rw [hv]
    simp [row_entry, hi]
  · intro i v hki hv
    refine ⟨?_, PubMed_log_mem fetch su df ss k i v hv hki, ?_⟩
    · rw [PubMed_results_get?, hv]
      simp [row_entry, Nat.not_lt.mpr hki]
    · rw [PubMed_results_get?, PubMed_results_get?, hv]
      simp [row_entry, Nat.not_lt.mpr hki]

theorem PubMed_results_resume_witness :
    (1 ≤ demoNames.length) ∧
    ((PubMed_results_biomon_terms timeoutFetch "" demoNames none 1).1.length =
      demoNames.length ∧
    (∀ i, i < 1 →
      (PubMed_results_biomon_terms timeoutFetch "" demoNames none 1).1.get? i =
        some NResult.NA ∧
      ∀ u, (i, u) ∉ (PubMed_results_biomon_terms timeoutFetch "" demoNames none 1).2) ∧
    (∀ i v, 1 ≤ i → demoNames.get? i = some v →
      (PubMed_results_biomon_terms timeoutFetch "" demoNames none 1).1.get? i =
        some (process_row timeoutFetch i (pubmed_url "" v none)) ∧
      (i, pubmed_url "" v none) ∈
        (PubMed_results_biomon_terms timeoutFetch "" demoNames none 1).2 ∧
      (PubMed_results_biomon_terms timeoutFetch "" demoNames none 1).1.get? i =
        (PubMed_results_biomon_terms timeoutFetch "" demoNames none 0).1.get? i)) :=
  ⟨by decide, PubMed_results_resume timeoutFetch "" demoNames none 1 (by decide)⟩

/-- C5: a timeout on the request of row i records the TIMEOUT sentinel
exactly at index i; every other row is unaffected (its entry agrees with
the run under any oracle that differs only on row i) and is still
processed normally. -/
theorem PubMed_timeout_isolation (fetch fetch' : Nat → String → Outcome)
    (su : String) (df : List String) (ss : Option String) (i : Nat) (v : String)
    (hv : df.get? i = some v)
    (ht : fetch i (pubmed_url su v ss) = Outcome.timeout)
    (hagree : ∀ j u, j ≠ i → fetch' j u = fetch j u) :
    (PubMed_results_biomon_terms fetch su df ss 0).1.get? i =
      some NResult.TIMEOUT ∧
    (∀ j, j ≠ i →
      (PubMed_results_biomon_terms fetch su df ss 0).1.get? j =
      (PubMed_results_biomon_terms fetch' su df ss 0).1.get? j) ∧
    (∀ j w, j ≠ i → df.get? j = some w →
      (PubMed_results_biomon_terms fetch su df ss 0).1.get? j =
        some (process_row fetch j (pubmed_url su w ss))) := by
  refine ⟨?_, ?_, ?_⟩
  · rw [PubMed_results_get?, hv]
    simp [row_entry, process_row, ht]
  · intro j hj
    rw [PubMed_results_get?, PubMed_results_get?]
    cases hw : df.get? j with
    | none => rfl
    | some w =>
      simp [row_entry, process_row, hagree j _ hj]
  · intro j w hj hw
    rw [PubMed_results_get?, hw]
    simp [row_entry]

theorem PubMed_timeout_isolation_witness :
    (["water"].get? 0 = some "water" ∧
      timeoutFetch 0 (pubmed_url "" "water" none) = Outcome.timeout) ∧
    ((PubMed_results_biomon_terms timeoutFetch "" ["water"] none 0).1.get? 0 =
      some NResult.TIMEOUT ∧
    (∀ j, j ≠ 0 →
      (PubMed_results_biomon_terms timeoutFetch "" ["water"] none 0).1.get? j =
      (PubMed_results_biomon_terms timeoutFetch "" ["water"] none 0).1.get? j) ∧
    (∀ j w, j ≠ 0 → ["water"].get? j = some w →
      (PubMed_results_biomon_terms timeoutFetch "" ["water"] none 0).1.get? j =
        some (process_row timeoutFetch j (pubmed_url "" w none)))) :=
  ⟨⟨rfl, rfl⟩,
    PubMed_timeout_isolation timeoutFetch timeoutFetch "" ["water"] none 0 "water"
      rfl rfl (fun _ _ _ => rfl)⟩

/-- C8: on a successful response for row i whose page holds a span of
class value, the recorded entry at index i is the contents of that span;
when the span is absent the entry is the NA sentinel. -/
theorem PubMed_success_records_value_span (fetch : Nat → String → Outcome)
    (su : String) (df : List String) (ss : Option String) (i : Nat) (v : String)
    (page : Page) (hv : df.get? i = some v)
    (hs : fetch i (pubmed_url su v ss) = Outcome.success page) :
    (∀ e, find_value_span page = some e →
      (PubMed_results_biomon_terms fetch su df ss 0).1.get? i =
        some (NResult.result e.contents)) ∧
    (find_value_span page = none →
      (PubMed_results_biomon_terms fetch su df ss 0).1.get? i = some NResult.NA) := by
  constructor
  · intro e he
    rw [PubMed_results_get?, hv]
    simp [row_entry, process_row, hs, he]
  · intro he
    rw [PubMed_results_get?, hv]
    simp [row_entry, process_row, hs, he]

theorem PubMed_success_records_value_span_witness :
    (["water"].get? 0 = some "water" ∧
      spanPageFetch 0 (pubmed_url "" "water" none) = Outcome.success spanPage) ∧
    ((∀ e, find_value_span spanPage = some e →
      (PubMed_results_biomon_terms spanPageFetch "" ["water"] none 0).1.get? 0 =
        some (NResult.result e.contents)) ∧
    (find_value_span spanPage = none →
      (PubMed_results_biomon_terms spanPageFetch "" ["water"] none 0).1.get? 0 =
        some NResult.NA)) :=
  ⟨⟨rfl, rfl⟩,
    PubMed_success_records_value_span spanPageFetch "" ["water"] none 0 "water"
      spanPage rfl rfl⟩

end PubMed
